import Mathlib

/-!
Verification of the Lofield FM configuration validator
(`scripts/validate_config.py`) against its specification.

The Python script is shallowly embedded below: Python `int` is modelled by
`Int` (arbitrary precision), Python `float` policy/ratio/budget values by `ℚ`
(the validator only adds, multiplies, divides and compares them; all concrete
values appearing in claims are decimal literals, so rational arithmetic agrees
with the intent of the comparisons), Python lists by `List`, and a Python
function that can raise an uncaught exception by `Except Unit`.  Finding
messages whose text interpolates numbers are modelled as structured findings
carrying exactly the interpolated data; cross-reference messages, which are
pure string concatenation in the source, are modelled as the literal strings.
-/

namespace Lofield

/-- Drops leading and trailing whitespace, modelling the whitespace stripping
that Python `int(str)` performs before reading the number (ASCII whitespace;
exotic Unicode spaces and digit-group underscores are not modelled, no input
in this development uses them). -/
def pyStrip (cs : List Char) : List Char :=
  ((cs.dropWhile Char.isWhitespace).reverse.dropWhile Char.isWhitespace).reverse

/-- Reads a run of decimal digits accumulating its value; fails on the first
non-digit, as Python `int(str)` rejects any string containing one. -/
def pyDigitsAux : List Char → Nat → Option Nat
  | [], acc => some acc
  | c :: cs, acc =>
      if c.isDigit then pyDigitsAux cs (acc * 10 + (c.toNat - 48)) else none

/-- Models Python `int(str)` on the characters of the argument: optional
surrounding whitespace, an optional single sign, then one or more decimal
digits; `none` models the `ValueError` that `int` raises otherwise. -/
def pyIntChars (cs : List Char) : Option Int :=
  match pyStrip cs with
  | [] => none
  | c :: rest =>
      if c = '-' then
        match rest with
        | [] => none
        | _ => (pyDigitsAux rest 0).map (fun n => -(n : Int))
      else if c = '+' then
        match rest with
        | [] => none
        | _ => (pyDigitsAux rest 0).map (fun n => (n : Int))
      else
        (pyDigitsAux (c :: rest) 0).map (fun n => (n : Int))

/-- Splits a character list at every occurrence of `sep`, modelling Python
`str.split` with a one-character separator (empty parts are kept). -/
def splitOnChar (sep : Char) : List Char → List (List Char)
  | [] => [[]]
  | c :: cs =>
      match splitOnChar sep cs with
      | [] => [[]]
      | w :: ws => if c = sep then [] :: (w :: ws) else (c :: w) :: ws

/-- Models `map(int, s.split(':'))` unpacked into exactly two values, as in
`start_hour, start_min = map(int, start.split(':'))`: `none` models the
`ValueError` raised when there are not exactly two parts or a part is not an
integer.  No range check is performed — the source has none. -/
def parseTimePy (s : String) : Option (Int × Int) :=
  match splitOnChar ':' s.toList with
  | [a, b] =>
      match pyIntChars a, pyIntChars b with
      | some h, some m => some (h, m)
      | _, _ => none
  | _ => none

/-- A show document as the validator reads it: the fields of the per-show JSON
files that `validate_config.py` accesses. -/
structure Show where
  id : String
  primary_duo : List String
  primary_tags : List String
  music_fraction : ℚ
  talk_fraction : ℚ
  start_time_utc : String
  end_time_utc : String
  duration_hours : ℚ
  max_tts_seconds_per_show : ℚ
  max_music_minutes_per_show : ℚ
deriving DecidableEq

/-- The dict `{'id': ..., 'start': ..., 'end': ...}` built by
`validate_schedule_coverage`; the field `stop` models the key `'end'`
(`end` is reserved in Lean). -/
structure Slot where
  id : String
  start : Int
  stop : Int
deriving DecidableEq

/-- Normalization of one show's schedule, from `validate_schedule_coverage`:
`'start': start_hour * 60 + start_min`,
`'end': end_hour * 60 + end_min if end != "00:00" else 24 * 60`;
`none` models the uncaught `ValueError` from a malformed time string. -/
def normalizeSlot (s : Show) : Option Slot :=
  match parseTimePy s.start_time_utc, parseTimePy s.end_time_utc with
  | some (sh, sm), some (eh, em) =>
      some { id := s.id,
             start := sh * 60 + sm,
             stop := if s.end_time_utc = ("00:00") then 24 * 60 else eh * 60 + em }
  | _, _ => none

/-- The `schedule` list built by the parsing loop of
`validate_schedule_coverage`; the first parse failure aborts the whole
function (there is no try/except in the source), hence `none`. -/
def buildSchedule : List Show → Option (List Slot)
  | [] => some []
  | s :: rest =>
      match normalizeSlot s with
      | none => none
      | some slot => (buildSchedule rest).map (fun l => slot :: l)

/-- Inserts a slot into a list already sorted ascending by `start`, keeping it
before later-listed slots with an equal `start`. -/
def insertSlot (x : Slot) : List Slot → List Slot
  | [] => [x]
  | y :: ys => if x.start ≤ y.start then x :: y :: ys else y :: insertSlot x ys

/-- Models `schedule.sort(key=lambda x: x['start'])`: a stable ascending sort
by `start` (insertion sort, which is stable like Python's sort). -/
def sortSlots : List Slot → List Slot
  | [] => []
  | x :: xs => insertSlot x (sortSlots xs)

/-- A finding of the Schedule Checker, carrying the data interpolated into the
corresponding message string of the source. -/
inductive SchedFinding where
  | gap (minutes : Int) (currentId neighborId : String)
  | overlap (minutes : Int) (currentId neighborId : String)
  | coverage (totalMinutes : Int)
deriving DecidableEq

/-- The body of the gap/overlap loop for one slot: compare `current['end']`
with `expected_end` and report against the neighbour used to compute it. -/
def slotFinding (cur : Slot) (expectedEnd : Int) (neighborId : String) : List SchedFinding :=
  if cur.stop < expectedEnd then
    [SchedFinding.gap (expectedEnd - cur.stop) cur.id neighborId]
  else if cur.stop > expectedEnd then
    [SchedFinding.overlap (cur.stop - expectedEnd) cur.id neighborId]
  else []

/-- The loop `for i in range(len(schedule))` of `validate_schedule_coverage`:
for the last slot `expected_end = 24 * 60` and the neighbour
`schedule[(i + 1) % len(schedule)]` wraps to the first slot; otherwise the
neighbour is the next slot and `expected_end` is its start. -/
def adjacencyFindings (first : Slot) : List Slot → List SchedFinding
  | [] => []
  | [cur] => slotFinding cur (24 * 60) first.id
  | cur :: nxt :: rest => slotFinding cur nxt.start nxt.id ++ adjacencyFindings first (nxt :: rest)

/-- `sum(s['end'] - s['start'] for s in schedule)`. -/
def totalMinutes (slots : List Slot) : Int :=
  (slots.map (fun s => s.stop - s.start)).sum

/-- The `if total_minutes != 24 * 60` check of `validate_schedule_coverage`. -/
def coverageFindings (slots : List Slot) : List SchedFinding :=
  if totalMinutes slots ≠ 24 * 60 then [SchedFinding.coverage (totalMinutes slots)] else []

/-- The findings emitted over the sorted slot list: the adjacency loop (empty
when the list is empty, since `range(0)` is empty) followed by the coverage
check. -/
def schedFindings : List Slot → List SchedFinding
  | [] => coverageFindings []
  | first :: rest => adjacencyFindings first (first :: rest) ++ coverageFindings (first :: rest)

/-- `validate_schedule_coverage` over already-loaded show documents:
parse all schedules (an unparseable time string raises, modelled by
`Except.error ()`), sort by start, then run the adjacency and coverage
checks. -/
def validate_schedule_coverage (shows : List Show) : Except Unit (List SchedFinding) :=
  match buildSchedule shows with
  | none => Except.error ()
  | some slots => Except.ok (schedFindings (sortSlots slots))

/-- Each slot ends exactly where its successor starts, and the final slot ends
at minute 1440. -/
def slotChain : List Slot → Bool
  | [] => true
  | [cur] => cur.stop == 24 * 60
  | cur :: nxt :: rest => cur.stop == nxt.start && slotChain (nxt :: rest)

/-- A sorted slot list is an exact circular partition of the day: non-empty,
the first slot starts at minute 0, each slot ends where the next starts, and
the last slot ends at minute 1440. -/
def IsCircularPartition : List Slot → Bool
  | [] => false
  | first :: rest => first.start == 0 && slotChain (first :: rest)

/-- The message `f"{show_id}: Unknown presenter '{presenter_id}'"`. -/
def unknownPresenterMsg (showId p : String) : String :=
  showId ++ (": Unknown presenter \x27") ++ p ++ ("\x27")

/-- The message `f"{show_id}: Unknown tag '{tag}'"`. -/
def unknownTagMsg (showId t : String) : String :=
  showId ++ (": Unknown tag \x27") ++ t ++ ("\x27")

/-- The loop `for presenter_id in duo` of `validate_cross_references`. -/
def presenterErrors (presenterIds : List String) (showId : String) : List String → List String
  | [] => []
  | p :: ps =>
      (if p ∉ presenterIds then [unknownPresenterMsg showId p] else [])
        ++ presenterErrors presenterIds showId ps

/-- The loop `for tag in primary_tags` of `validate_cross_references`. -/
def tagErrors (allowedTags : List String) (showId : String) : List String → List String
  | [] => []
  | t :: ts =>
      (if t ∉ allowedTags then [unknownTagMsg showId t] else [])
        ++ tagErrors allowedTags showId ts

/-- `validate_cross_references` over already-loaded show documents, with the
presenter-id set and allowed-tag set already extracted from
`presenters.json` and `tags.json` (set membership in Python agrees with
membership in the underlying list). -/
def validate_cross_references (presenterIds allowedTags : List String) : List Show → List String
  | [] => []
  | s :: rest =>
      presenterErrors presenterIds s.id s.primary_duo
        ++ tagErrors allowedTags s.id s.primary_tags
        ++ validate_cross_references presenterIds allowedTags rest

/-- Written from the words of the specification of the Cross-Reference
Checker, for comparison with `validate_cross_references`: for every show in
file-enumeration order, an Unknown-presenter error for each `primary_duo`
entry absent from the presenter-id set, in sequence order, followed by an
Unknown-tag error for each `primary_tags` entry absent from the allowed-tag
set, in sequence order. -/
def crossRefSpec (presenterIds allowedTags : List String) (shows : List Show) : List String :=
  shows.flatMap (fun s =>
    (s.primary_duo.filter (fun p => p ∉ presenterIds)).map (fun p => unknownPresenterMsg s.id p)
      ++ (s.primary_tags.filter (fun t => t ∉ allowedTags)).map (fun t => unknownTagMsg s.id t))

/-- Models Python `abs` on the rational model of floats. -/
def ratAbs (q : ℚ) : ℚ := if q < 0 then -q else q

/-- A finding of the Ratio Checker, carrying the data interpolated into the
corresponding message string of the source. -/
inductive RatioFinding where
  | musicExceeds (showId : String) (value maxValue : ℚ)
  | talkBelow (showId : String) (value minValue : ℚ)
  | sumMismatch (showId : String) (total : ℚ)
deriving DecidableEq

/-- The three per-show checks of `validate_music_ratios`, in source order:
`music_fraction > max_music`, `talk_fraction < min_talk`, and
`abs(music_fraction + talk_fraction - 1.0) > 0.001`. -/
def ratioFindingsFor (maxMusic minTalk : ℚ) (s : Show) : List RatioFinding :=
  (if s.music_fraction > maxMusic then
      [RatioFinding.musicExceeds s.id s.music_fraction maxMusic] else [])
    ++ (if s.talk_fraction < minTalk then
      [RatioFinding.talkBelow s.id s.talk_fraction minTalk] else [])
    ++ (if ratAbs (s.music_fraction + s.talk_fraction - 1) > 0.001 then
      [RatioFinding.sumMismatch s.id (s.music_fraction + s.talk_fraction)] else [])

/-- `validate_music_ratios` over already-loaded show documents, with the
policy bounds already extracted from `station.json`. -/
def validate_music_ratios (maxMusic minTalk : ℚ) : List Show → List RatioFinding
  | [] => []
  | s :: rest => ratioFindingsFor maxMusic minTalk s ++ validate_music_ratios maxMusic minTalk rest

/-- A finding of the Budget Checker, carrying the data interpolated into the
corresponding message string of the source. -/
inductive BudgetFinding where
  | ttsDrift (showId : String) (declared expected : ℚ)
  | musicDrift (showId : String) (declared expected : ℚ)
deriving DecidableEq

/-- `expected_tts = total_seconds * talk_fraction` with
`total_seconds = duration_hours * 3600`. -/
def expectedTts (s : Show) : ℚ := s.duration_hours * 3600 * s.talk_fraction

/-- `expected_music_mins = (total_seconds * music_fraction) / 60`. -/
def expectedMusicMins (s : Show) : ℚ := s.duration_hours * 3600 * s.music_fraction / 60

/-- The two per-show checks of `validate_ai_budgets`, in source order:
`abs(tts_budget - expected_tts) > 60` and
`abs(music_budget - expected_music_mins) > 5`. -/
def budgetFindingsFor (s : Show) : List BudgetFinding :=
  (if ratAbs (s.max_tts_seconds_per_show - expectedTts s) > 60 then
      [BudgetFinding.ttsDrift s.id s.max_tts_seconds_per_show (expectedTts s)] else [])
    ++ (if ratAbs (s.max_music_minutes_per_show - expectedMusicMins s) > 5 then
      [BudgetFinding.musicDrift s.id s.max_music_minutes_per_show (expectedMusicMins s)] else [])

/-- `validate_ai_budgets` over already-loaded show documents. -/
def validate_ai_budgets : List Show → List BudgetFinding
  | [] => []
  | s :: rest => budgetFindingsFor s ++ validate_ai_budgets rest

/-- A finding of any checker, tagged by the checker that produced it. -/
inductive Finding where
  | crossRef (msg : String)
  | ratio (f : RatioFinding)
  | sched (f : SchedFinding)
  | budget (f : BudgetFinding)
deriving DecidableEq

/-- Whether a finding came from the Budget Checker. -/
def Finding.isBudget : Finding → Bool
  | Finding.budget _ => true
  | _ => false

/-- The already-loaded configuration documents `main` works on: the
presenter-id set, the allowed-tag set, the policy bounds from
`station.json`, and the show documents in file-enumeration order.  The
file-system JSON-syntax pass is the external Document Loader and is outside
the engine. -/
structure Config where
  presenter_ids : List String
  allowed_tags : List String
  max_music_fraction : ℚ
  min_talk_fraction : ℚ
  shows : List Show
deriving DecidableEq

/-- The two ordered finding sequences `all_errors` and `all_warnings`
accumulated by `main`. -/
structure Report where
  errors : List Finding
  warnings : List Finding
deriving DecidableEq

/-- The aggregation in `main`: errors from the cross-reference, ratio and
schedule checkers in that order, warnings from the budget checker; an
exception escaping `validate_schedule_coverage` propagates out of `main`. -/
def runValidation (cfg : Config) : Except Unit Report :=
  match validate_schedule_coverage cfg.shows with
  | Except.error e => Except.error e
  | Except.ok schedErrs =>
      Except.ok
        { errors :=
            (validate_cross_references cfg.presenter_ids cfg.allowed_tags cfg.shows).map
                Finding.crossRef
              ++ (validate_music_ratios cfg.max_music_fraction cfg.min_talk_fraction
                  cfg.shows).map Finding.ratio
              ++ schedErrs.map Finding.sched,
          warnings := (validate_ai_budgets cfg.shows).map Finding.budget }

/-- Whether the run fails: `main` calls `sys.exit(1)` exactly when
`all_errors` is non-empty, and a run aborted by an uncaught exception also
exits non-zero. -/
def validationFailed (cfg : Config) : Bool :=
  match runValidation cfg with
  | Except.error _ => true
  | Except.ok rep => !rep.errors.isEmpty

/-- A show document with the given id, schedule strings, ratios, duration and
budgets, referencing two roster presenters and one vocabulary tag. -/
def mkShow (id sTime eTime : String) (music talk dur tts musb : ℚ) : Show :=
  { id := id
    primary_duo := [("ana"), ("ben")]
    primary_tags := [("news")]
    music_fraction := music
    talk_fraction := talk
    start_time_utc := sTime
    end_time_utc := eTime
    duration_hours := dur
    max_tts_seconds_per_show := tts
    max_music_minutes_per_show := musb }

/-- A show from 00:00 to 12:00, internally consistent. -/
def morningShow : Show := mkShow ("morning") ("00:00") ("12:00") 0.5 0.5 12 21600 360

/-- A show from 12:00 to end-of-day, internally consistent. -/
def nightShow : Show := mkShow ("night") ("12:00") ("00:00") 0.5 0.5 12 21600 360

/-- A single show spanning the whole day, 00:00 to 00:00. -/
def soloShow : Show := mkShow ("solo") ("00:00") ("00:00") 0.5 0.5 24 43200 720

/-- A single show from 01:00 to end-of-day: minutes 0-60 are uncovered. -/
def lateShow : Show := mkShow ("late") ("01:00") ("00:00") 0.5 0.5 23 41400 690

/-- A show whose start time is not integer-parseable. -/
def brokenShow : Show := mkShow ("broken") ("ab:cd") ("10:00") 0.5 0.5 10 18000 300

/-- A show whose end time has no colon at all. -/
def colonlessShow : Show := mkShow ("colonless") ("10:00") ("xx") 0.5 0.5 10 18000 300

/-- A show from 23:00 to 01:00, wrapping past midnight. -/
def lateNightShow : Show := mkShow ("latenight") ("23:00") ("01:00") 0.5 0.5 2 3600 60

/-- A single show covering only half the day. -/
def halfShow : Show := mkShow ("half") ("00:00") ("12:00") 0.5 0.5 12 21600 360

/-- A show whose ratios sum to exactly 1.0 + 0.0011. -/
def sumHighShow : Show := mkShow ("sumhigh") ("00:00") ("12:00") 0.5 0.5011 12 21600 360

/-- A show whose ratios sum to exactly 1.0 + 0.0009. -/
def sumLowShow : Show := mkShow ("sumlow") ("00:00") ("12:00") 0.5 0.5009 12 21600 360

/-- A show sitting exactly on both policy bounds with ratios summing to 1. -/
def boundShow : Show := mkShow ("bound") ("00:00") ("12:00") 0.6 0.4 12 17280 432

/-- A fully consistent configuration: one all-day show, resolving roster and
vocabulary, and the 0.6/0.4 policy of `station.json`. -/
def exCfg : Config :=
  { presenter_ids := [("ana"), ("ben")]
    allowed_tags := [("news")]
    max_music_fraction := 0.6
    min_talk_fraction := 0.4
    shows := [soloShow] }

/-- `slotFinding` is silent exactly when the slot ends at the expected end. -/
theorem slotFinding_eq_nil (cur : Slot) (e : Int) (n : String) :
    slotFinding cur e n = [] ↔ cur.stop = e := by
  unfold slotFinding
  split_ifs with h1 h2 <;> simp <;> omega

/-- A chained slot list produces no gap or overlap finding, whatever slot the
wraparound neighbour is. -/
theorem adjacency_of_chain (first : Slot) :
    ∀ l : List Slot, slotChain l = true → adjacencyFindings first l = [] := by
  intro l
  induction l with
  | nil => intro _; rfl
  | cons cur tail ih =>
    cases tail with
    | nil =>
      intro h
      simp only [slotChain, beq_iff_eq] at h
      simp only [adjacencyFindings]
      exact (slotFinding_eq_nil cur (24 * 60) first.id).mpr h
    | cons nxt rest =>
      intro h
      simp only [slotChain, Bool.and_eq_true, beq_iff_eq] at h
      simp only [adjacencyFindings]
      rw [(slotFinding_eq_nil cur nxt.start nxt.id).mpr h.1, ih h.2]
      rfl

/-- Conversely, a slot list with no gap or overlap finding is chained. -/
theorem chain_of_adjacency (first : Slot) :
    ∀ l : List Slot, adjacencyFindings first l = [] → slotChain l = true := by
  intro l
  induction l with
  | nil => intro _; rfl
  | cons cur tail ih =>
    cases tail with
    | nil =>
      intro h
      simp only [adjacencyFindings] at h
      simp only [slotChain, beq_iff_eq]
      exact (slotFinding_eq_nil cur (24 * 60) first.id).mp h
    | cons nxt rest =>
      intro h
      simp only [adjacencyFindings, List.append_eq_nil] at h
      simp only [slotChain, Bool.and_eq_true, beq_iff_eq]
      exact ⟨(slotFinding_eq_nil cur nxt.start nxt.id).mp h.1, ih h.2⟩

/-- The minute total of a chained slot list telescopes to 1440 minus the
start of its first slot. -/
theorem total_of_chain :
    ∀ (c : Slot) (r : List Slot), slotChain (c :: r) = true →
      totalMinutes (c :: r) = 24 * 60 - c.start := by
  intro c r
  induction r generalizing c with
  | nil =>
    intro h
    simp only [slotChain, beq_iff_eq] at h
    simp only [totalMinutes, List.map_cons, List.map_nil, List.sum_cons, List.sum_nil]
    omega
  | cons nxt rest ih =>
    intro h
    simp only [slotChain, Bool.and_eq_true, beq_iff_eq] at h
    have hnxt := ih nxt h.2
    simp only [totalMinutes, List.map_cons, List.sum_cons] at hnxt ⊢
    omega

/-- A show whose time strings do not parse makes the whole schedule-building
loop raise. -/
theorem buildSchedule_none :
    ∀ (shows : List Show) (s : Show), s ∈ shows → normalizeSlot s = none →
      buildSchedule shows = none := by
  intro shows
  induction shows with
  | nil => intro s hs _; exact absurd hs (List.not_mem_nil s)
  | cons a rest ih =>
    intro s hs hn
    rcases List.mem_cons.mp hs with h | h
    · subst h
      unfold buildSchedule
      rw [hn]
    · unfold buildSchedule
      cases hna : normalizeSlot a with
      | none => rfl
      | some slot =>
        rw [ih s h hn]
        rfl

/-- The budget checker is the per-show budget comparison applied to every
show in order. -/
theorem budgets_flatMap (shows : List Show) :
    validate_ai_budgets shows = shows.flatMap budgetFindingsFor := by
  induction shows with
  | nil => rfl
  | cons s rest ih => simp only [validate_ai_budgets, List.flatMap_cons, ih]

/-- The presenter loop filters the duo against the roster and renders each
missing id. -/
theorem presenterErrors_eq (ids : List String) (sid : String) :
    ∀ l : List String,
      presenterErrors ids sid l =
        (l.filter (fun p => p ∉ ids)).map (fun p => unknownPresenterMsg sid p) := by
  intro l
  induction l with
  | nil => rfl
  | cons p ps ih =>
    by_cases h : p ∈ ids
    · simp [presenterErrors, List.filter_cons, h, ih]
    · simp [presenterErrors, List.filter_cons, h, ih]

/-- The tag loop filters the tags against the vocabulary and renders each
missing tag. -/
theorem tagErrors_eq (tags : List String) (sid : String) :
    ∀ l : List String,
      tagErrors tags sid l =
        (l.filter (fun t => t ∉ tags)).map (fun t => unknownTagMsg sid t) := by
  intro l
  induction l with
  | nil => rfl
  | cons t ts ih =>
    by_cases h : t ∈ tags
    · simp [tagErrors, List.filter_cons, h, ih]
    · simp [tagErrors, List.filter_cons, h, ih]

/-- The Python-style absolute value agrees with the mathematical one. -/
theorem ratAbs_eq_abs (q : ℚ) : ratAbs q = |q| := by
  unfold ratAbs
  split_ifs with h
  · rw [abs_of_neg h]
  · rw [abs_of_nonneg (not_lt.mp h)]

/-- Claim C1: for every non-empty show set whose normalized slots, sorted
ascending by start minute, form an exact circular partition of the day (the
first slot starts at minute 0, each slot ends where the next starts, and the
last slot ends at minute 1440), the Schedule Checker emits zero gap findings,
zero overlap findings and zero coverage findings, and the computed total
coverage is exactly 1440 minutes. -/
theorem circular_partition_all_clean (shows : List Show) (slots : List Slot)
    (hb : buildSchedule shows = some slots)
    (hp : IsCircularPartition (sortSlots slots) = true) :
    validate_schedule_coverage shows = Except.ok [] ∧
      totalMinutes (sortSlots slots) = 24 * 60 := by
  cases hsort : sortSlots slots with
  | nil => rw [hsort] at hp; exact absurd hp (by simp [IsCircularPartition])
  | cons first rest =>
    rw [hsort] at hp
    simp only [IsCircularPartition, Bool.and_eq_true, beq_iff_eq] at hp
    have htot : totalMinutes (first :: rest) = 24 * 60 := by
      rw [total_of_chain first rest hp.2, hp.1]
      norm_num
    have hadj := adjacency_of_chain first (first :: rest) hp.2
    constructor
    · unfold validate_schedule_coverage
      rw [hb]
      simp only [hsort, schedFindings, hadj, coverageFindings, htot]
      simp
    · exact htot

/-- Witness for C1: the two-show partition 00:00-12:00 / 12:00-00:00. -/
theorem circular_partition_all_clean_witness :
    validate_schedule_coverage [morningShow, nightShow] = Except.ok [] ∧
      totalMinutes (sortSlots
        [{ id := ("morning"), start := 0, stop := 720 },
         { id := ("night"), start := 720, stop := 1440 }]) = 24 * 60 :=
  circular_partition_all_clean [morningShow, nightShow]
    [{ id := ("morning"), start := 0, stop := 720 },
     { id := ("night"), start := 720, stop := 1440 }] rfl rfl

/-- Claim C2 is false on the code at a concrete input: the single show
01:00-00:00 passes the Step 3 adjacency loop with no gap and no overlap
finding (its end, 1440, equals its expected end), yet the Step 4 total is
1380 minutes, not 1440, and the coverage error fires.  Nothing compares the
earliest start to minute 0, so adjacency-cleanliness does not imply full
coverage even on well-formed integer input. -/
theorem adjacency_clean_coverage_error_cex :
    buildSchedule [lateShow] = some [{ id := ("late"), start := 60, stop := 1440 }] ∧
      adjacencyFindings { id := ("late"), start := 60, stop := 1440 }
        [{ id := ("late"), start := 60, stop := 1440 }] = [] ∧
      totalMinutes [{ id := ("late"), start := 60, stop := 1440 }] = 1380 ∧
      validate_schedule_coverage [lateShow] = Except.ok [SchedFinding.coverage 1380] :=
  ⟨rfl, rfl, rfl, rfl⟩

/-- Claim C2 amended: for every non-empty show set whose parsed slots produce
no gap and no overlap findings in the Step 3 adjacency pass AND whose
earliest sorted slot starts at minute 0, the Step 4 total-coverage sum equals
exactly 1440, so the coverage error cannot fire; without the minute-0
condition the adjacency-clean total is 1440 minus the earliest start. -/
theorem adjacency_clean_first_zero_coverage (shows : List Show)
    (slots : List Slot) (first : Slot) (rest : List Slot)
    (hb : buildSchedule shows = some slots)
    (hsort : sortSlots slots = first :: rest)
    (h0 : first.start = 0)
    (hadj : adjacencyFindings first (first :: rest) = []) :
    totalMinutes (first :: rest) = 24 * 60 ∧
      validate_schedule_coverage shows = Except.ok [] := by
  have hchain := chain_of_adjacency first (first :: rest) hadj
  have htot : totalMinutes (first :: rest) = 24 * 60 := by
    rw [total_of_chain first rest hchain, h0]
    norm_num
  refine ⟨htot, ?_⟩
  unfold validate_schedule_coverage
  rw [hb]
  simp only [hsort, schedFindings, hadj, coverageFindings, htot]
  simp

/-- Witness for the amended C2 at the morning/night partition. -/
theorem adjacency_clean_first_zero_coverage_witness :
    totalMinutes [{ id := ("morning"), start := 0, stop := 720 },
        { id := ("night"), start := 720, stop := 1440 }] = 24 * 60 ∧
      validate_schedule_coverage [morningShow, nightShow] = Except.ok [] :=
  adjacency_clean_first_zero_coverage [morningShow, nightShow]
    [{ id := ("morning"), start := 0, stop := 720 },
     { id := ("night"), start := 720, stop := 1440 }]
    { id := ("morning"), start := 0, stop := 720 }
    [{ id := ("night"), start := 720, stop := 1440 }] rfl rfl rfl rfl

/-- Claim C3 is false on the code at a concrete input: the show with start
time "ab:cd" makes `int` raise an uncaught ValueError inside
`validate_schedule_coverage`, so the checker aborts with no finding at all —
it does not report a parse-error finding scoped to the show, does not exclude
the show and continue, and does let the exception propagate. -/
theorem malformed_time_uncaught_cex :
    parseTimePy ("ab:cd") = none ∧
      validate_schedule_coverage [brokenShow] = Except.error () :=
  ⟨rfl, rfl⟩

/-- Claim C3 amended: the Schedule Checker catches nothing; whenever any show
in the set has a start or end time string that does not split into exactly
two integer-parseable parts, the whole checker raises the parse exception:
no finding is emitted and no show is processed (strings whose parts do parse
as integers are accepted with no zero-padding or 0-23/0-59 range check). -/
theorem malformed_time_aborts_checker (shows : List Show) (s : Show)
    (hmem : s ∈ shows) (hn : normalizeSlot s = none) :
    validate_schedule_coverage shows = Except.error () := by
  unfold validate_schedule_coverage
  rw [buildSchedule_none shows s hmem hn]

/-- Witness for the amended C3: a show whose end time has no colon. -/
theorem malformed_time_aborts_checker_witness :
    validate_schedule_coverage [colonlessShow] = Except.error () :=
  malformed_time_aborts_checker [colonlessShow] colonlessShow
    (List.mem_singleton.mpr rfl) rfl

/-- Claim C4: for every policy and every show with music fraction at most
the policy maximum, talk fraction at least the policy minimum, and ratios
summing to 1 within the 0.001 tolerance, the Ratio Checker emits zero
findings for the show. -/
theorem ratio_checker_clean (maxMusic minTalk : ℚ) (s : Show)
    (h1 : s.music_fraction ≤ maxMusic)
    (h2 : s.talk_fraction ≥ minTalk)
    (h3 : |s.music_fraction + s.talk_fraction - 1| ≤ 0.001) :
    validate_music_ratios maxMusic minTalk [s] = [] := by
  have habs : ¬ ratAbs (s.music_fraction + s.talk_fraction - 1) > 0.001 := by
    rw [ratAbs_eq_abs]
    exact not_lt.mpr h3
  unfold validate_music_ratios ratioFindingsFor
  rw [if_neg (not_lt.mpr h1), if_neg (not_lt.mpr h2), if_neg habs]
  rfl

/-- Witness for C4: a show exactly on the 0.6/0.4 policy bounds with ratios
summing to exactly 1. -/
theorem ratio_checker_clean_witness :
    validate_music_ratios 0.6 0.4 [boundShow] = [] :=
  ratio_checker_clean 0.6 0.4 boundShow (by norm_num [boundShow, mkShow])
    (by norm_num [boundShow, mkShow]) (by norm_num [boundShow, mkShow])

/-- Claim C5: an end time of exactly "00:00" is normalized to minute 1440
(end of day) rather than 0 — for every show whose end string is "00:00" the
normalized slot ends at 1440 — while a start time of "00:00" is normalized
to minute 0, so the lone show scheduled 00:00-00:00 yields zero gap, overlap
and coverage findings with a total of exactly 1440 minutes. -/
theorem midnight_sentinel_single_show (s : Show) (sl : Slot)
    (hend : s.end_time_utc = ("00:00")) (hn : normalizeSlot s = some sl) :
    sl.stop = 24 * 60 ∧
      normalizeSlot soloShow = some { id := ("solo"), start := 0, stop := 1440 } ∧
      validate_schedule_coverage [soloShow] = Except.ok [] ∧
      totalMinutes [{ id := ("solo"), start := 0, stop := 1440 }] = 24 * 60 := by
  refine ⟨?_, rfl, rfl, rfl⟩
  unfold normalizeSlot at hn
  cases h1 : parseTimePy s.start_time_utc with
  | none => rw [h1] at hn; exact Option.noConfusion hn
  | some p1 =>
    cases h2 : parseTimePy s.end_time_utc with
    | none => rw [h1, h2] at hn; exact Option.noConfusion hn
    | some p2 =>
      rw [h1, h2] at hn
      injection hn with h3
      rw [← h3]
      simp [hend]

/-- Witness for C5 at the all-day show itself. -/
theorem midnight_sentinel_single_show_witness :
    ({ id := ("solo"), start := 0, stop := 1440 } : Slot).stop = 24 * 60 ∧
      normalizeSlot soloShow = some { id := ("solo"), start := 0, stop := 1440 } ∧
      validate_schedule_coverage [soloShow] = Except.ok [] ∧
      totalMinutes [{ id := ("solo"), start := 0, stop := 1440 }] = 24 * 60 :=
  midnight_sentinel_single_show soloShow
    { id := ("solo"), start := 0, stop := 1440 } rfl rfl

/-- Claim C6: the Cross-Reference Checker's output is exactly, show by show
in file-enumeration order, the Unknown-presenter messages for the
`primary_duo` entries missing from the roster in their sequence order,
followed by the Unknown-tag messages for the `primary_tags` entries missing
from the vocabulary in their sequence order, collected for all shows with no
early termination. -/
theorem cross_reference_messages (presenterIds allowedTags : List String) :
    ∀ shows : List Show,
      validate_cross_references presenterIds allowedTags shows =
        crossRefSpec presenterIds allowedTags shows := by
  intro shows
  induction shows with
  | nil => rfl
  | cons s rest ih =>
    simp only [validate_cross_references, crossRefSpec, List.flatMap_cons,
      presenterErrors_eq, tagErrors_eq, List.append_assoc]
    rw [ih]
    rfl

/-- Claim C8: ratios summing to exactly 1.0 + 0.0011 draw the sum-mismatch
finding from the Ratio Checker; ratios summing to exactly 1.0 + 0.0009 do
not. -/
theorem ratio_sum_tolerance_boundary :
    validate_music_ratios 0.6 0.4 [sumHighShow] =
        [RatioFinding.sumMismatch ("sumhigh") (1 + 0.0011)] ∧
      validate_music_ratios 0.6 0.4 [sumLowShow] = [] := by
  constructor
  · unfold sumHighShow mkShow
    norm_num [ratAbs, validate_music_ratios, ratioFindingsFor]
  · unfold sumLowShow mkShow
    norm_num [ratAbs, validate_music_ratios, ratioFindingsFor]

/-- Claim C9: the show 23:00-01:00 (end earlier than start, end not the
"00:00" sentinel) is normalized to a slot with end minute 60 below start
minute 1380; the checker emits only the ordinary gap finding and the
coverage finding — nothing flags the inverted interval as such — and the
slot contributes the negative amount -1320 to the Step 4 sum. -/
theorem inverted_interval_negative_contribution :
    normalizeSlot lateNightShow =
        some { id := ("latenight"), start := 1380, stop := 60 } ∧
      (60 : Int) - 1380 < 0 ∧
      totalMinutes [{ id := ("latenight"), start := 1380, stop := 60 }] = -1320 ∧
      validate_schedule_coverage [lateNightShow] =
        Except.ok [SchedFinding.gap 1380 ("latenight") ("latenight"),
          SchedFinding.coverage (-1320)] :=
  ⟨rfl, by decide, rfl, rfl⟩

/-- Claim C7: for every show the Budget Checker compares the declared TTS
budget against duration_hours*3600*talk_fraction with tolerance 60 and the
declared music budget against duration_hours*3600*music_fraction/60 with
tolerance 5, emitting a finding exactly when the tolerance is exceeded; every
budget finding lands in the warning sequence, the error sequence holds no
budget finding, and the run fails exactly when the error sequence is
non-empty, so budget findings never block validation success. -/
theorem budget_checker_warnings_only (cfg : Config) (rep : Report)
    (h : runValidation cfg = Except.ok rep) :
    rep.warnings = (validate_ai_budgets cfg.shows).map Finding.budget ∧
      rep.errors.all (fun f => !(Finding.isBudget f)) = true ∧
      validate_ai_budgets cfg.shows = cfg.shows.flatMap (fun s =>
        (if ratAbs (s.max_tts_seconds_per_show - expectedTts s) > 60 then
            [BudgetFinding.ttsDrift s.id s.max_tts_seconds_per_show (expectedTts s)]
          else [])
          ++ (if ratAbs (s.max_music_minutes_per_show - expectedMusicMins s) > 5 then
            [BudgetFinding.musicDrift s.id s.max_music_minutes_per_show
              (expectedMusicMins s)]
          else [])) ∧
      validationFailed cfg = !rep.errors.isEmpty := by
  cases hsched : validate_schedule_coverage cfg.shows with
  | error e =>
    exfalso
    unfold runValidation at h
    rw [hsched] at h
    exact Except.noConfusion h
  | ok schedErrs =>
    have hrep : rep =
        { errors :=
            (validate_cross_references cfg.presenter_ids cfg.allowed_tags
                cfg.shows).map Finding.crossRef
              ++ (validate_music_ratios cfg.max_music_fraction cfg.min_talk_fraction
                  cfg.shows).map Finding.ratio
              ++ schedErrs.map Finding.sched,
          warnings := (validate_ai_budgets cfg.shows).map Finding.budget } := by
      unfold runValidation at h
      rw [hsched] at h
      injection h with h2
      exact h2.symm
    refine ⟨by rw [hrep], ?_, ?_, ?_⟩
    · rw [hrep]
      simp [List.all_append, List.all_map, Function.comp, Finding.isBudget]
    · exact budgets_flatMap cfg.shows
    · unfold validationFailed
      rw [h]

/-- Witness for C7: the consistent one-show configuration, whose report is
empty on both sides. -/
theorem budget_checker_warnings_only_witness :
    ({ errors := [], warnings := [] } : Report).warnings =
        (validate_ai_budgets exCfg.shows).map Finding.budget ∧
      ({ errors := [], warnings := [] } : Report).errors.all
        (fun f => !(Finding.isBudget f)) = true ∧
      validate_ai_budgets exCfg.shows = exCfg.shows.flatMap (fun s =>
        (if ratAbs (s.max_tts_seconds_per_show - expectedTts s) > 60 then
            [BudgetFinding.ttsDrift s.id s.max_tts_seconds_per_show (expectedTts s)]
          else [])
          ++ (if ratAbs (s.max_music_minutes_per_show - expectedMusicMins s) > 5 then
            [BudgetFinding.musicDrift s.id s.max_music_minutes_per_show
              (expectedMusicMins s)]
          else [])) ∧
      validationFailed exCfg = !({ errors := [], warnings := [] } : Report).errors.isEmpty :=
  budget_checker_warnings_only exCfg { errors := [], warnings := [] } (by
    have hr : validate_music_ratios 0.6 0.4 [soloShow] = [] := by
      unfold soloShow mkShow
      norm_num [ratAbs, validate_music_ratios, ratioFindingsFor]
    have hbu : validate_ai_budgets [soloShow] = [] := by
      unfold soloShow mkShow
      norm_num [ratAbs, validate_ai_budgets, budgetFindingsFor, expectedTts,
        expectedMusicMins]
    unfold runValidation exCfg
    rw [show validate_schedule_coverage [soloShow] = Except.ok [] from rfl]
    rw [show validate_cross_references [("ana"), ("ben")] [("news")] [soloShow] = []
      from rfl]
    rw [hr, hbu]
    rfl)

/-- Claim C10: when exactly one show is loaded and its normalized slot does
not end at minute 1440, the single gap or overlap finding names that show as
both endpoints of the pair, because with one slot the wraparound neighbour
index (i+1) mod 1 makes the slot its own neighbour. -/
theorem single_show_self_neighbor (s : Show) (slot : Slot)
    (hn : normalizeSlot s = some slot) (hne : slot.stop ≠ 24 * 60) :
    slot.id = s.id ∧
      validate_schedule_coverage [s] =
        Except.ok ((if slot.stop < 24 * 60 then
            [SchedFinding.gap (24 * 60 - slot.stop) slot.id slot.id]
          else
            [SchedFinding.overlap (slot.stop - 24 * 60) slot.id slot.id])
          ++ coverageFindings [slot]) := by
  have hid : slot.id = s.id := by
    unfold normalizeSlot at hn
    cases h1 : parseTimePy s.start_time_utc with
    | none => rw [h1] at hn; exact Option.noConfusion hn
    | some p1 =>
      cases h2 : parseTimePy s.end_time_utc with
      | none =>
        rw [h1, h2] at hn
        exact Option.noConfusion hn
      | some p2 =>
        rw [h1, h2] at hn
        injection hn with h3
        rw [← h3]
  have hbs : buildSchedule [s] = some [slot] := by
    unfold buildSchedule
    rw [hn]
    rfl
  refine ⟨hid, ?_⟩
  unfold validate_schedule_coverage
  rw [hbs]
  show Except.ok (schedFindings [slot]) = _
  simp only [schedFindings, adjacencyFindings]
  congr 1
  unfold slotFinding
  by_cases hlt : slot.stop < 24 * 60
  · rw [if_pos hlt, if_pos hlt]
  · have hgt : slot.stop > 24 * 60 := lt_of_le_of_ne (not_lt.mp hlt) (Ne.symm hne)
    rw [if_neg hlt, if_neg hlt, if_pos hgt]

/-- Witness for C10: the lone show 00:00-12:00 is reported as a 720-minute
gap between itself and itself. -/
theorem single_show_self_neighbor_witness :
    validate_schedule_coverage [halfShow] =
      Except.ok [SchedFinding.gap 720 ("half") ("half"),
        SchedFinding.coverage 720] := by
  have h := single_show_self_neighbor halfShow
    { id := ("half"), start := 0, stop := 720 } rfl (by decide)
  rw [h.2]
  rfl

end Lofield
